import Mathlib

/-!
A shallow embedding of the authentication and address-mutation subsystem of
the MiTienditaMX backend (Express + MySQL, `server.js` / `sequelizeConfig.js`).

Modelling conventions:
* The `users` table is a list of `UserRec` records.  Per the spec's data
  model, `addresses` is a single persisted *text* field (the handler writes
  `JSON.stringify(updatedAddresses)` into it); the MySQL driver hands a text
  column back to JavaScript as a string, so the field is `Option String`
  (`none` models SQL NULL / an absent value).
* Request-body fields arrive as `Option String`: `none` models an absent
  JSON field, and JavaScript truthiness of a string (`!x` in the handlers)
  is `isMissing` — absent and the empty string are the only falsy cases.
* JavaScript's spread `[...x, y]` over `x = rows[0].addresses || []` is
  `spreadJs`: spreading an array concatenates it, while spreading a
  *string* iterates its code points, yielding one single-character string
  per character.  The handler never calls `JSON.parse`, so the string case
  is what actually runs whenever a serialized list is already stored.
* `JSON.stringify` restricted to the values this program ever serializes
  (arrays of strings and of `\x7bstreet, city, country\x7d` objects) is
  `stringifyList`, with the exact escaping rules of the JSON standard.
* bcrypt and jsonwebtoken are third-party libraries whose internals are not
  part of the repository; they are modelled from the spec's contracts
  (§4.1 CredentialHasher, §4.2/§6 token format), see `bhash` / `jwtSign`.
* Each HTTP handler becomes a pure function from the database and the
  request to the pair (response, database-after).  A handler that only
  issues SELECT statements returns the database unchanged in every branch,
  mirroring the absence of any INSERT/UPDATE in its source.
-/

/-- An address record as destructured from the request body and serialized
into the `addresses` list: `\x7b street, city, country \x7d`. -/
structure Address where
  street : String
  city : String
  country : String
deriving DecidableEq, Repr

/-- The JSON values that can appear as elements of the `updatedAddresses`
array built by the Add-address handler: address objects, and — because the
handler spreads the raw stored string — single-character strings. -/
inductive JVal where
  | vStr : String → JVal
  | vAddr : Address → JVal
deriving DecidableEq, Repr

/-- Lowercase hexadecimal digit, for JSON `\u00XX` control-character escapes. -/
def hexDigit (n : Nat) : Char :=
  if n < 10 then Char.ofNat (48 + n) else Char.ofNat (87 + n)

/-- Four lowercase hex digits of `n`, as in JSON `\uXXXX` escapes. -/
def hex4 (n : Nat) : String :=
  String.mk [hexDigit (n / 4096 % 16), hexDigit (n / 256 % 16),
             hexDigit (n / 16 % 16), hexDigit (n % 16)]

/-- `JSON.stringify` escaping of one character inside a string literal. -/
def jsonEscapeChar (c : Char) : String :=
  if c = '"' then "\\\""
  else if c = '\\' then "\\\\"
  else if c = Char.ofNat 8 then "\\b"
  else if c = Char.ofNat 9 then "\\t"
  else if c = Char.ofNat 10 then "\\n"
  else if c = Char.ofNat 12 then "\\f"
  else if c = Char.ofNat 13 then "\\r"
  else if c.toNat < 32 then "\\u" ++ hex4 c.toNat
  else String.singleton c

/-- `JSON.stringify` of a string value. -/
def quoteJson (s : String) : String :=
  "\"" ++ String.join (s.data.map jsonEscapeChar) ++ "\""

/-- `JSON.stringify` of the object literal `\x7b street, city, country \x7d`;
JavaScript preserves the insertion order of the keys. -/
def stringifyAddr (a : Address) : String :=
  "\x7b\"street\":" ++ quoteJson a.street ++ ",\"city\":" ++ quoteJson a.city
    ++ ",\"country\":" ++ quoteJson a.country ++ "\x7d"

/-- `JSON.stringify` of one array element. -/
def stringifyJVal : JVal → String
  | .vStr s => quoteJson s
  | .vAddr a => stringifyAddr a

/-- `JSON.stringify` of the `updatedAddresses` array. -/
def stringifyList (l : List JVal) : String :=
  "[" ++ String.intercalate "," (l.map stringifyJVal) ++ "]"

/-- Modelled from the spec: a bcrypt digest (§4.1 CredentialHasher).  The
bcrypt library is a dependency, not repository code, so only the contract is
modelled: hashing draws a fresh salt (here an explicit argument) and the
digest records the salt together with a value determined by the pair
(salt, secret); one-wayness and the work factor are not modelled. -/
structure Digest where
  salt : String
  body : String
deriving DecidableEq, Repr

/-- Modelled from the spec: `bcrypt.hash(secret, rounds)` with the salt the
library drew made explicit. -/
def bhash (secret salt : String) : Digest := ⟨salt, salt ++ secret⟩

/-- Modelled from the spec: `bcrypt.compare(secret, digest)` — re-derives the
keyed value from the digest's own salt and compares it with the stored body. -/
def bcompare (secret : String) (d : Digest) : Bool := d.body == d.salt ++ secret

/-- Modelled from the spec (§6 token format): a decoded session token,
carrying the payload `\x7buserId, email\x7d` that `jwt.sign` receives plus
the `iat`/`exp` claims the library adds, and the signature. -/
structure Token where
  userId : Nat
  email : String
  iat : Nat
  exp : Nat
  sig : String
deriving DecidableEq, Repr

/-- Modelled from the spec: the signature jsonwebtoken computes over the
payload with the process-wide secret (`HMAC(secret, payload)` abstracted as
an injective tagging of the payload by the secret). -/
def jwtSig (secret : String) (userId : Nat) (email : String) (iat expAt : Nat) : String :=
  secret ++ "." ++ toString userId ++ "." ++ email ++ "." ++ toString iat
    ++ "." ++ toString expAt

/-- Modelled from the spec: `jwt.sign(\x7buserId, email\x7d, secret,
\x7bexpiresIn\x7d)` at clock time `now`, with `ttl` the `expiresIn` value in
seconds ('1h' = 3600). -/
def jwtSign (userId : Nat) (email : String) (secret : String) (now ttl : Nat) : Token :=
  ⟨userId, email, now, now + ttl, jwtSig secret userId email now (now + ttl)⟩

/-- One row of the `users` table as the two handlers see it: the columns of
the Sequelize model plus the `addresses` text column the Add-address handler
reads and writes (spec §3: a single persisted text field, NULL until the
first address is stored).  `password` holds the bcrypt digest stored at
registration. -/
structure UserRec where
  id : Nat
  name : String
  email : String
  password : Digest
  isAdmin : Bool
  addresses : Option String
deriving DecidableEq, Repr

/-- The `users` table. -/
abbrev Db := List UserRec

/-- JavaScript falsiness of a request-body string field: `!x` is true exactly
for an absent field and for the empty string. -/
def isMissing : Option String → Bool
  | none => true
  | some s => s == ""

/-- `rows[0].addresses || []` followed by the spread `[...currentAddresses]`:
NULL and the empty string are falsy and give the empty array; a nonempty
stored string is spread character by character into one-character strings. -/
def spreadJs : Option String → List JVal
  | none => []
  | some s => if s == "" then [] else s.data.map (fun c => JVal.vStr (String.singleton c))

/-- `SELECT * FROM users WHERE email = ?` — the rows in table order. -/
def findByEmail (db : Db) (e : String) : List UserRec :=
  db.filter (fun u => u.email == e)

/-- `SELECT ... FROM users WHERE id = ?` — the rows in table order. -/
def findById (db : Db) (i : Nat) : List UserRec :=
  db.filter (fun u => u.id == i)

/-- Body of `POST /login`. -/
structure LoginReq where
  email : Option String
  password : Option String
deriving DecidableEq, Repr

/-- Response of `POST /login`: status, message, and the token when present. -/
structure LoginResp where
  status : Nat
  message : String
  token : Option Token
deriving DecidableEq, Repr

/-- Body of `PUT /users/:id/addresses`. -/
structure AddrReq where
  street : Option String
  city : Option String
  country : Option String
deriving DecidableEq, Repr

/-- Response of `PUT /users/:id/addresses`. -/
structure AddrResp where
  status : Nat
  message : String
deriving DecidableEq, Repr

/-- The `POST /login` handler (server source, lines 499–526): reject missing
fields with 400; look the account up by email; unknown email and wrong
password both answer `400 "Credenciales inválidas"`; on a bcrypt match,
`jwt.sign(\x7buserId: user.id, email: user.email\x7d, JWT_SECRET,
\x7bexpiresIn: '1h'\x7d)` and `200`.  Every branch issues only SELECTs, so
the table comes back unchanged. -/
def login (secret : String) (now : Nat) (db : Db) (req : LoginReq) : LoginResp × Db :=
  if isMissing req.email || isMissing req.password then
    (⟨400, "Email y password son obligatorios", none⟩, db)
  else
    match findByEmail db (req.email.getD "") with
    | [] => (⟨400, "Credenciales inválidas", none⟩, db)
    | user :: _ =>
      if bcompare (req.password.getD "") user.password then
        (⟨200, "Inicio de sesión exitoso", some (jwtSign user.id user.email secret now 3600)⟩, db)
      else
        (⟨400, "Credenciales inválidas", none⟩, db)

/-- The `PUT /users/:id/addresses` handler (server source, lines 442–471):
reject missing fields with 400; `404` when no row matches the id; otherwise
`updatedAddresses = [...(rows[0].addresses || []), \x7bstreet, city,
country\x7d]` — with NO `JSON.parse` on the stored text — then
`UPDATE users SET addresses = JSON.stringify(updatedAddresses) WHERE id = ?`
and `200`. -/
def addAddress (db : Db) (userId : Nat) (req : AddrReq) : AddrResp × Db :=
  if isMissing req.street || isMissing req.city || isMissing req.country then
    (⟨400, "Todos los campos son obligatorios"⟩, db)
  else
    match findById db userId with
    | [] => (⟨404, "Usuario no encontrado"⟩, db)
    | u :: _ =>
      let newAddress : Address := ⟨req.street.getD "", req.city.getD "", req.country.getD ""⟩
      let updatedAddresses : List JVal := spreadJs u.addresses ++ [JVal.vAddr newAddress]
      (⟨200, "Dirección agregada correctamente"⟩,
       db.map (fun v =>
         if v.id == userId then { v with addresses := some (stringifyList updatedAddresses) } else v))

/-! ## Helper lemmas -/

/-- String concatenation is left-cancellative. -/
theorem string_append_cancel_left (a b c : String) (h : a ++ b = a ++ c) : b = c := by
  have hd := congrArg String.data h
  simp only [String.data_append] at hd
  have h2 := List.append_cancel_left hd
  exact congrArg String.mk h2

/-- The success path of the Add-address handler: with all three fields
present and nonempty and at least one row matching the id, the handler
answers 200 and rewrites the `addresses` column of every row matching the
id to the serialization of the spread of the first found row's stored value
followed by the new address. -/
theorem addAddress_success_eq (db : Db) (uid : Nat) (st ci co : String) (u : UserRec)
    (rest : List UserRec) (h1 : st ≠ "") (h2 : ci ≠ "") (h3 : co ≠ "")
    (h4 : findById db uid = u :: rest) :
    addAddress db uid ⟨some st, some ci, some co⟩ =
      (⟨200, "Dirección agregada correctamente"⟩,
       db.map (fun v => if v.id == uid then
         { v with addresses := some (stringifyList (spreadJs u.addresses ++ [JVal.vAddr ⟨st, ci, co⟩])) }
         else v)) := by
  simp [addAddress, isMissing, h1, h2, h3, h4]

/-- The success path of the login handler. -/
theorem login_success_eq (secret : String) (now : Nat) (db : Db) (e pw : String)
    (u : UserRec) (rest : List UserRec) (he : e ≠ "") (hp : pw ≠ "")
    (hfound : findByEmail db e = u :: rest) (hok : bcompare pw u.password = true) :
    login secret now db ⟨some e, some pw⟩ =
      (⟨200, "Inicio de sesión exitoso", some (jwtSign u.id u.email secret now 3600)⟩, db) := by
  simp [login, isMissing, he, hp, hfound, hok]

/-- The wrong-password path of the login handler. -/
theorem login_wrongpw_eq (secret : String) (now : Nat) (db : Db) (e pw : String)
    (u : UserRec) (rest : List UserRec) (he : e ≠ "") (hp : pw ≠ "")
    (hfound : findByEmail db e = u :: rest) (hbad : bcompare pw u.password = false) :
    login secret now db ⟨some e, some pw⟩ = (⟨400, "Credenciales inválidas", none⟩, db) := by
  simp [login, isMissing, he, hp, hfound, hbad]

/-- The unknown-email path of the login handler. -/
theorem login_unknown_eq (secret : String) (now : Nat) (db : Db) (e pw : String)
    (he : e ≠ "") (hp : pw ≠ "") (hnone : findByEmail db e = []) :
    login secret now db ⟨some e, some pw⟩ = (⟨400, "Credenciales inválidas", none⟩, db) := by
  simp [login, isMissing, he, hp, hnone]

/-- Rewriting every stored password digest commutes with the email lookup,
because the lookup reads only the `email` column. -/
theorem findByEmail_map_pw (g : Digest → Digest) (db : Db) (e : String) :
    findByEmail (db.map (fun v => { v with password := g v.password })) e
      = (findByEmail db e).map (fun v => { v with password := g v.password }) := by
  induction db with
  | nil => rfl
  | cons a t ih =>
    simp only [findByEmail, List.map_cons, List.filter_cons] at *
    by_cases h : (a.email == e) = true
    · simp [h, ih]
    · simp only [Bool.not_eq_true] at h
      simp [h, ih]

/-! ## Concrete fixtures used by witnesses and counterexamples -/

/-- A registered account (spec §8 scenario: `id:1, email:"a@b.com",
passwordHash:H("secret")`), no address stored yet. -/
def uW : UserRec := ⟨1, "Ana", "a@b.com", bhash "secret" "s1", false, none⟩

/-- A one-row users table holding `uW`. -/
def dbW : Db := [uW]

/-- An account with id 5 and no address stored yet (NULL column), as in the
spec §8 first-address scenario. -/
def u5 : UserRec := ⟨5, "Eva", "e@b.com", bhash "pw5" "s5", false, none⟩

/-- A one-row users table holding `u5`. -/
def db5 : Db := [u5]

/-- An account whose `addresses` column already holds the serialized empty
list — the text `"[]"`, which is exactly `stringifyList []`. -/
def dbBug : Db := [⟨5, "Eva", "e@b.com", bhash "pw5" "s5", false, some "[]"⟩]

/-! ## Claims -/

/-- Claim C1: the claim says a successful Add-address call on an account
whose persisted `addresses` text deserializes to a list of length `n`
persists a list of length `n + 1`, the first `n` entries unchanged and the
last equal to the input.  The code violates this: it never parses the
stored text, and the JavaScript spread iterates the *string* character by
character.  Concretely, for an account whose stored text is `"[]"` (the
serialization of the empty list, `n = 0`), the call succeeds with 200 but
persists the serialization of the three-element list
`["[", "]", \x7bstreet, city, country\x7d]` instead of the one-element list
holding only the input address. -/
theorem addAddress_spread_corrupts_stored_list :
    "[]" = stringifyList [] ∧
    (addAddress dbBug 5 ⟨some "Main", some "X", some "Y"⟩).1 =
      ⟨200, "Dirección agregada correctamente"⟩ ∧
    (addAddress dbBug 5 ⟨some "Main", some "X", some "Y"⟩).2 =
      [⟨5, "Eva", "e@b.com", bhash "pw5" "s5", false,
        some (stringifyList [JVal.vStr "[", JVal.vStr "]", JVal.vAddr ⟨"Main", "X", "Y"⟩])⟩] ∧
    stringifyList [JVal.vStr "[", JVal.vStr "]", JVal.vAddr ⟨"Main", "X", "Y"⟩] ≠
      stringifyList [JVal.vAddr ⟨"Main", "X", "Y"⟩] ∧
    [JVal.vStr "[", JVal.vStr "]", JVal.vAddr ⟨"Main", "X", "Y"⟩] ≠
      [JVal.vAddr ⟨"Main", "X", "Y"⟩] := by
  exact ⟨rfl, rfl, by decide, by decide, by decide⟩

/-- Claim C2: for every `(email, password)` pair matching a stored account,
Login answers 200 with the success message and a token whose payload's
`userId` and `email` are the account's; and no Login response on any path
contains the stored password hash — formalized as: the entire outcome of
Login is invariant under replacing every stored digest by any digest with
the same compare behaviour, so nothing of the digest beyond the boolean
match result can reach the response. -/
theorem login_success_token_and_no_hash :
    (∀ (secret : String) (now : Nat) (db : Db) (e pw : String) (u : UserRec)
       (rest : List UserRec), e ≠ "" → pw ≠ "" →
       findByEmail db e = u :: rest → bcompare pw u.password = true →
       login secret now db ⟨some e, some pw⟩ =
         (⟨200, "Inicio de sesión exitoso", some (jwtSign u.id u.email secret now 3600)⟩, db)) ∧
    (∀ (secret : String) (now : Nat) (db : Db) (req : LoginReq) (g : Digest → Digest),
       (∀ (p : String) (d : Digest), bcompare p (g d) = bcompare p d) →
       login secret now (db.map (fun v => { v with password := g v.password })) req =
         ((login secret now db req).1, db.map (fun v => { v with password := g v.password }))) := by
  constructor
  · intro secret now db e pw u rest he hp hfound hok
    exact login_success_eq secret now db e pw u rest he hp hfound hok
  · intro secret now db req g hg
    by_cases hv : (isMissing req.email || isMissing req.password) = true
    · simp [login, hv]
    · cases hf : findByEmail db (req.email.getD "") with
      | nil => simp [login, hv, findByEmail_map_pw, hf]
      | cons u t =>
        by_cases hc : bcompare (req.password.getD "") u.password = true
        · simp [login, hv, findByEmail_map_pw, hf, hg, hc]
        · simp only [Bool.not_eq_true] at hc
          simp [login, hv, findByEmail_map_pw, hf, hg, hc]

/-- Claim C2 witness at the spec §8 scenario account. -/
theorem login_success_token_and_no_hash_witness :
    login "k" 7 dbW ⟨some "a@b.com", some "secret"⟩ =
      (⟨200, "Inicio de sesión exitoso", some (jwtSign 1 "a@b.com" "k" 7 3600)⟩, dbW) ∧
    login "k" 7 (dbW.map (fun v => { v with password := v.password })) ⟨some "a@b.com", none⟩ =
      ((login "k" 7 dbW ⟨some "a@b.com", none⟩).1,
       dbW.map (fun v => { v with password := v.password })) :=
  ⟨login_success_token_and_no_hash.1 "k" 7 dbW "a@b.com" "secret" uW []
     (by decide) (by decide) (by decide) (by decide),
   login_success_token_and_no_hash.2 "k" 7 dbW ⟨some "a@b.com", none⟩
     (fun d => d) (fun _ _ => rfl)⟩

/-- Claim C3: a wrong password against an existing email and an attempt
against a non-existent email produce the identical status 400 and the
identical message body `"Credenciales inválidas"`, so the two failure
causes are indistinguishable to the caller. -/
theorem login_failures_indistinguishable (secret : String) (now : Nat) (db db2 : Db)
    (e pw e2 pw2 : String) (u : UserRec) (rest : List UserRec)
    (he : e ≠ "") (hp : pw ≠ "") (he2 : e2 ≠ "") (hp2 : pw2 ≠ "")
    (hfound : findByEmail db e = u :: rest)
    (hwrong : bcompare pw u.password = false)
    (hnone : findByEmail db2 e2 = []) :
    (login secret now db ⟨some e, some pw⟩).1 = ⟨400, "Credenciales inválidas", none⟩ ∧
    (login secret now db2 ⟨some e2, some pw2⟩).1 = ⟨400, "Credenciales inválidas", none⟩ := by
  constructor
  · rw [login_wrongpw_eq secret now db e pw u rest he hp hfound hwrong]
  · rw [login_unknown_eq secret now db2 e2 pw2 he2 hp2 hnone]

/-- Claim C3 witness: wrong password on the stored account versus a lookup
of an email no account has. -/
theorem login_failures_indistinguishable_witness :
    (login "k" 0 dbW ⟨some "a@b.com", some "wrong"⟩).1 =
      ⟨400, "Credenciales inválidas", none⟩ ∧
    (login "k" 0 dbW ⟨some "z@b.com", some "x"⟩).1 =
      ⟨400, "Credenciales inválidas", none⟩ :=
  login_failures_indistinguishable "k" 0 dbW dbW "a@b.com" "wrong" "z@b.com" "x" uW []
    (by decide) (by decide) (by decide) (by decide) (by decide) (by decide) (by decide)

/-- Claim C4: a Login request with an absent or empty email or password, and
an Add-address request with an absent or empty street, city, or country,
each get a 400 validation answer whose body is a fixed literal — so the
response does not depend on the table in any way (no read) — and the table
after the call is the table before it (no write). -/
theorem reject_missing_fields_before_storage :
    (∀ (secret : String) (now : Nat) (db : Db) (req : LoginReq),
       (isMissing req.email || isMissing req.password) = true →
       login secret now db req = (⟨400, "Email y password son obligatorios", none⟩, db)) ∧
    (∀ (db : Db) (uid : Nat) (req : AddrReq),
       (isMissing req.street || isMissing req.city || isMissing req.country) = true →
       addAddress db uid req = (⟨400, "Todos los campos son obligatorios"⟩, db)) := by
  constructor
  · intro secret now db req h
    simp [login, h]
  · intro db uid req h
    simp [addAddress, h]

/-- Claim C4 witness: an empty password on login and an absent street on
Add-address. -/
theorem reject_missing_fields_before_storage_witness :
    login "k" 0 dbW ⟨some "a@b.com", some ""⟩ =
      (⟨400, "Email y password son obligatorios", none⟩, dbW) ∧
    addAddress dbW 1 ⟨none, some "X", some "Y"⟩ =
      (⟨400, "Todos los campos son obligatorios"⟩, dbW) :=
  ⟨reject_missing_fields_before_storage.1 "k" 0 dbW ⟨some "a@b.com", some ""⟩ (by decide),
   reject_missing_fields_before_storage.2 dbW 1 ⟨none, some "X", some "Y"⟩ (by decide)⟩

/-- Claim C5: an Add-address request with valid input whose path id matches
no stored account answers `404 "Usuario no encontrado"` and returns the
table exactly as it was: no record created, no write issued. -/
theorem addAddress_unknown_id_notfound (db : Db) (uid : Nat) (st ci co : String)
    (h1 : st ≠ "") (h2 : ci ≠ "") (h3 : co ≠ "") (h4 : findById db uid = []) :
    addAddress db uid ⟨some st, some ci, some co⟩ =
      (⟨404, "Usuario no encontrado"⟩, db) := by
  simp [addAddress, isMissing, h1, h2, h3, h4]

/-- Claim C5 witness: the spec §8 scenario, unknown id 999. -/
theorem addAddress_unknown_id_notfound_witness :
    addAddress db5 999 ⟨some "Main", some "X", some "Y"⟩ =
      (⟨404, "Usuario no encontrado"⟩, db5) :=
  addAddress_unknown_id_notfound db5 999 "Main" "X" "Y"
    (by decide) (by decide) (by decide) (by decide)

/-- Claim C6: when the found account's persisted `addresses` value is absent
(SQL NULL), Add-address treats it as the empty sequence and does not fail: a
first-ever Add-address with valid input succeeds with 200 and persists
exactly the serialization of the one-element list holding the input
address. -/
theorem addAddress_first_address (db : Db) (uid : Nat) (st ci co : String) (u : UserRec)
    (rest : List UserRec) (h1 : st ≠ "") (h2 : ci ≠ "") (h3 : co ≠ "")
    (h4 : findById db uid = u :: rest) (h5 : u.addresses = none) :
    addAddress db uid ⟨some st, some ci, some co⟩ =
      (⟨200, "Dirección agregada correctamente"⟩,
       db.map (fun v => if v.id == uid then
         { v with addresses := some (stringifyList [JVal.vAddr ⟨st, ci, co⟩]) } else v)) := by
  rw [addAddress_success_eq db uid st ci co u rest h1 h2 h3 h4, h5]
  exact rfl

/-- Claim C6 witness: the spec §8 scenario — account id 5 with no stored
address receives `\x7bstreet:"Main", city:"X", country:"Y"\x7d`, and the
resulting table holds exactly the serialized one-element list. -/
theorem addAddress_first_address_witness :
    addAddress db5 5 ⟨some "Main", some "X", some "Y"⟩ =
      (⟨200, "Dirección agregada correctamente"⟩,
       [⟨5, "Eva", "e@b.com", bhash "pw5" "s5", false,
         some (stringifyList [JVal.vAddr ⟨"Main", "X", "Y"⟩])⟩]) :=
  (addAddress_first_address db5 5 "Main" "X" "Y" u5 []
     (by decide) (by decide) (by decide) (by decide) (by decide)).trans (by decide)

/-- Claim C7: the token issued on successful login carries the account's id
and email, an issuance time `iat = now`, an expiry `exp = now + 3600`
(fixed TTL of one hour, the handler's `expiresIn: '1h'`), and a signature
computed from the process-wide secret over that payload. -/
theorem login_token_ttl_signed (secret : String) (now : Nat) (db : Db) (e pw : String)
    (u : UserRec) (rest : List UserRec) (he : e ≠ "") (hp : pw ≠ "")
    (hfound : findByEmail db e = u :: rest) (hok : bcompare pw u.password = true) :
    (login secret now db ⟨some e, some pw⟩).1.token =
      some ⟨u.id, u.email, now, now + 3600, jwtSig secret u.id u.email now (now + 3600)⟩ := by
  rw [login_success_eq secret now db e pw u rest he hp hfound hok]
  exact rfl

/-- Claim C7 witness at the stored account. -/
theorem login_token_ttl_signed_witness :
    (login "k" 7 dbW ⟨some "a@b.com", some "secret"⟩).1.token =
      some ⟨1, "a@b.com", 7, 7 + 3600, jwtSig "k" 1 "a@b.com" 7 (7 + 3600)⟩ :=
  login_token_ttl_signed "k" 7 dbW "a@b.com" "secret" uW []
    (by decide) (by decide) (by decide) (by decide)

/-- Claim C8: the hasher's verify accepts exactly the hashed secret — two
hash calls on the same secret with distinct salts give distinct digests, yet
verify accepts the secret against each of them, and verify rejects every
digest hashed from a different secret. -/
theorem hasher_verify_roundtrip :
    (∀ (s salt1 salt2 : String), s ≠ "" → salt1 ≠ salt2 → bhash s salt1 ≠ bhash s salt2) ∧
    (∀ (s salt : String), s ≠ "" → bcompare s (bhash s salt) = true) ∧
    (∀ (s s2 salt : String), s ≠ s2 → bcompare s (bhash s2 salt) = false) := by
  refine ⟨?_, ?_, ?_⟩
  · intro s salt1 salt2 _ hsalt heq
    exact hsalt (congrArg Digest.salt heq)
  · intro s salt _
    simp [bcompare, bhash]
  · intro s s2 salt hne
    simp only [bcompare, bhash]
    rw [beq_eq_false_iff_ne]
    intro h
    exact hne (string_append_cancel_left salt s2 s h).symm

/-- Claim C8 witness on concrete secrets and salts. -/
theorem hasher_verify_roundtrip_witness :
    bhash "secret" "s1" ≠ bhash "secret" "s2" ∧
    bcompare "secret" (bhash "secret" "s1") = true ∧
    bcompare "wrong" (bhash "secret" "s1") = false :=
  ⟨hasher_verify_roundtrip.1 "secret" "s1" "s2" (by decide) (by decide),
   hasher_verify_roundtrip.2.1 "secret" "s1" (by decide),
   hasher_verify_roundtrip.2.2 "wrong" "secret" "s1" (by decide)⟩

/-- Claim C9: a successful Add-address call touches only the `addresses`
column of rows matching the path id: the resulting table has the same
length and order, every row keeps its `id`, `name`, `email`, `password`
and `isAdmin` values, and every row whose id differs from the path id is
entirely unchanged. -/
theorem addAddress_frame (db : Db) (uid : Nat) (st ci co : String) (u : UserRec)
    (rest : List UserRec) (h1 : st ≠ "") (h2 : ci ≠ "") (h3 : co ≠ "")
    (h4 : findById db uid = u :: rest) :
    (addAddress db uid ⟨some st, some ci, some co⟩).1.status = 200 ∧
    List.Forall₂ (fun v w => w.id = v.id ∧ w.name = v.name ∧ w.email = v.email ∧
        w.password = v.password ∧ w.isAdmin = v.isAdmin ∧ (v.id ≠ uid → w = v))
      db (addAddress db uid ⟨some st, some ci, some co⟩).2 := by
  rw [addAddress_success_eq db uid st ci co u rest h1 h2 h3 h4]
  refine ⟨rfl, ?_⟩
  rw [List.forall₂_map_right_iff, List.forall₂_same]
  intro x _
  by_cases hx : (x.id == uid) = true
  · have hxx : x.id = uid := by simpa using hx
    simp [hx, hxx]
  · simp only [Bool.not_eq_true] at hx
    simp [hx]

/-- Claim C9 witness at the one-row table. -/
theorem addAddress_frame_witness :
    (addAddress db5 5 ⟨some "Main", some "X", some "Y"⟩).1.status = 200 ∧
    List.Forall₂ (fun v w => w.id = v.id ∧ w.name = v.name ∧ w.email = v.email ∧
        w.password = v.password ∧ w.isAdmin = v.isAdmin ∧ (v.id ≠ 5 → w = v))
      db5 (addAddress db5 5 ⟨some "Main", some "X", some "Y"⟩).2 :=
  addAddress_frame db5 5 "Main" "X" "Y" u5 []
    (by decide) (by decide) (by decide) (by decide)

/-- Claim C10: Login never modifies stored state — on every path (missing
fields, unknown email, wrong password, success) the table after the call
equals the table before it; the handler only reads. -/
theorem login_is_readonly (secret : String) (now : Nat) (db : Db) (req : LoginReq) :
    (login secret now db req).2 = db := by
  simp only [login]
  split
  · rfl
  · split
    · rfl
    · split <;> rfl
